import Mathlib

/-!
Verification of the tilt-platform runner core (src/game.js): procedural world
streaming (spawn ahead / cull behind), tilt-driven platform-angle smoothing,
camera follow, distance scoring and the run state machine.

Numbers are modelled exactly: JS float64 arithmetic is embedded as exact
field arithmetic, generic over a `LinearOrderedField` (instantiated at `ℚ`
for executable scenarios and at `ℝ` where the configuration constant
`MAX_PLATFORM_ANGLE_RAD = π/5` matters).  `Math.random()` results are
modelled as explicit oracle streams of rationals in `[0,1)`; the Matter.js
physics engine (Engine.update) is an external collaborator and is modelled
as an oracle giving the ball's post-step position.
-/

namespace TiltRun

/-- Mirrors the `CONFIG` object of game.js (section 3, "Game config").
`yBaseFrac` and `cameraLeadFrac` are the source's `PLATFORM_Y_BASE_` and
`CAMERA_LEAD_` ratio constants. -/
structure Config (α : Type*) where
  PLATFORM_LENGTH : α
  PLATFORM_HEIGHT : α
  PLATFORM_GAP_MIN : α
  PLATFORM_GAP_MAX : α
  yBaseFrac : α
  PLATFORM_Y_VARIATION : α
  MAX_TILT_DEG : α
  MAX_PLATFORM_ANGLE_RAD : α
  PLATFORM_ANGLE_LERP : α
  cameraLeadFrac : α
  CAMERA_LERP : α
  KILL_Y_MULTIPLIER : α

variable {α : Type*} [LinearOrderedField α]

/-- The concrete `CONFIG` values from game.js; `MAX_PLATFORM_ANGLE_RAD` is
`Math.PI / 5`, kept as a parameter so the record can live in any field
(`CONFIG (Real.pi / 5) : Config ℝ` is the real configuration). -/
def CONFIG (maxAngleRad : α) : Config α :=
  { PLATFORM_LENGTH := 260
    PLATFORM_HEIGHT := 20
    PLATFORM_GAP_MIN := 80
    PLATFORM_GAP_MAX := 140
    yBaseFrac := 3 / 5
    PLATFORM_Y_VARIATION := 60
    MAX_TILT_DEG := 25
    MAX_PLATFORM_ANGLE_RAD := maxAngleRad
    PLATFORM_ANGLE_LERP := 8
    cameraLeadFrac := 3 / 10
    CAMERA_LERP := 6
    KILL_Y_MULTIPLIER := 2 }

/-- `randBetween(min, max)` from game.js: `min + Math.random() * (max - min)`,
with `r` standing for the `Math.random()` draw (contractually in `[0,1)`). -/
def randBetween (lo hi r : α) : α := lo + r * (hi - lo)

/-- A static platform body: Matter.js `Bodies.rectangle(centerX, centerY, len, h)`.
All platforms share the global `platformAngle`, so only the center is per-platform
state. -/
structure Platform (α : Type*) where
  centerX : α
  centerY : α
deriving DecidableEq

/-- Left edge of a platform, `centerX - PLATFORM_LENGTH / 2`. -/
def leftEdge (cfg : Config α) (p : Platform α) : α :=
  p.centerX - cfg.PLATFORM_LENGTH / 2

/-- Right edge of a platform, `centerX + PLATFORM_LENGTH / 2`
(`endX` in `cullOldPlatforms`). -/
def rightEdge (cfg : Config α) (p : Platform α) : α :=
  p.centerX + cfg.PLATFORM_LENGTH / 2

/-- Input snapshot read by `updateTargetPlatformAngle`: the `useTilt` flag,
the cached `tiltX` (device gamma), and the two keyboard flags. -/
structure TiltIn (α : Type*) where
  useTilt : Bool
  tiltX : α
  keysLeft : Bool
  keysRight : Bool

/-- `updateTargetPlatformAngle()` from game.js: in tilt mode clamp `tiltX` to
`±MAX_TILT_DEG` and map proportionally to `±MAX_PLATFORM_ANGLE_RAD`; in
keyboard mode start from 0, subtract the max angle while left is held and add
it while right is held. -/
def updateTargetPlatformAngle (cfg : Config α) (inp : TiltIn α) : α :=
  if inp.useTilt then
    let maxTilt := cfg.MAX_TILT_DEG
    let clamped := max (-maxTilt) (min maxTilt inp.tiltX)
    clamped / maxTilt * cfg.MAX_PLATFORM_ANGLE_RAD
  else
    let d0 : α := 0
    let d1 := if inp.keysLeft then d0 - cfg.MAX_PLATFORM_ANGLE_RAD else d0
    let d2 := if inp.keysRight then d1 + cfg.MAX_PLATFORM_ANGLE_RAD else d1
    d2

/-- The smoothing step of `applyPlatformAngle(dt)` from game.js:
recompute the target, then
`platformAngle += (targetPlatformAngle - platformAngle) * min(1, stiffness*dt)`.
(The `Body.setAngle` broadcast to the platform bodies is a physics-engine side
effect carrying exactly this value.) -/
def applyPlatformAngle (cfg : Config α) (inp : TiltIn α) (dt angle : α) : α :=
  let target := updateTargetPlatformAngle cfg inp
  let t := min 1 (cfg.PLATFORM_ANGLE_LERP * dt)
  angle + (target - angle) * t

/-- The camera's desired position, `ball.position.x - width * CAMERA_LEAD_RATIO`. -/
def desiredCameraX (cfg : Config α) (width ballX : α) : α :=
  ballX - width * cfg.cameraLeadFrac

/-- `updateCamera(dt)` from game.js:
`cameraX += (desiredCameraX - cameraX) * min(1, CAMERA_LERP * dt)`. -/
def updateCamera (cfg : Config α) (width ballX dt cameraX : α) : α :=
  cameraX + (desiredCameraX cfg width ballX - cameraX) * min 1 (cfg.CAMERA_LERP * dt)

/-- The world-streamer state: the ordered platform collection (spawn order)
and the frontier `lastPlatformEndX`. -/
structure SpawnState (α : Type*) where
  platforms : List (Platform α)
  lastPlatformEndX : α

/-- `spawnPlatform()` from game.js: places one platform at
`lastPlatformEndX + gap + len/2` with `gap = randBetween(GAP_MIN, GAP_MAX)` and
`centerY = baseY + randBetween(-Y_VARIATION, Y_VARIATION)`, appends it, and
advances the frontier to `centerX + len/2`.  `r` is the pair of
`Math.random()` draws (gap, yVariation). -/
def spawnPlatform (cfg : Config α) (height : α) (r : α × α) (st : SpawnState α) :
    SpawnState α :=
  let baseY := height * cfg.yBaseFrac
  let gap := randBetween cfg.PLATFORM_GAP_MIN cfg.PLATFORM_GAP_MAX r.1
  let centerX := st.lastPlatformEndX + gap + cfg.PLATFORM_LENGTH / 2
  let centerY := baseY + randBetween (-cfg.PLATFORM_Y_VARIATION) cfg.PLATFORM_Y_VARIATION r.2
  { platforms := st.platforms ++ [⟨centerX, centerY⟩]
    lastPlatformEndX := centerX + cfg.PLATFORM_LENGTH / 2 }

/-- The `while (lastPlatformEndX < aheadThreshold) spawnPlatform()` loop of
`maybeSpawnPlatforms()`, modelled with explicit fuel; `k` indexes the random
stream.  `maybeSpawnPlatforms` below always passes enough fuel for the loop to
reach its exit condition (`spawn_ahead_inv`), and adding fuel beyond that
leaves the result unchanged (`maybeSpawnPlatforms_terminates`), so the fuelled
loop agrees with the JS while loop. -/
def spawnLoop (cfg : Config α) (height threshold : α) (rands : Nat → α × α) :
    Nat → Nat → SpawnState α → SpawnState α
  | 0, _, st => st
  | fuel + 1, k, st =>
    if st.lastPlatformEndX < threshold then
      spawnLoop cfg height threshold rands fuel (k + 1)
        (spawnPlatform cfg height (rands k) st)
    else st

/-- Fuel bound for `spawnLoop`: `⌈threshold - lastPlatformEndX⌉⁺` iterations
always suffice, because every spawn advances the frontier by
`gap + PLATFORM_LENGTH ≥ 340 ≥ 1`. -/
def spawnFuel (threshold endX : ℚ) : Nat := (Int.ceil (threshold - endX)).toNat

/-- `maybeSpawnPlatforms()` from game.js: spawn while the frontier is less than
`cameraX + width * 2` (two screens ahead of the camera). -/
def maybeSpawnPlatforms (cfg : Config ℚ) (height width cameraX : ℚ)
    (rands : Nat → ℚ × ℚ) (st : SpawnState ℚ) : SpawnState ℚ :=
  let aheadThreshold := cameraX + width * 2
  spawnLoop cfg height aheadThreshold rands
    (spawnFuel aheadThreshold st.lastPlatformEndX) 0 st

/-- `cullOldPlatforms()` from game.js: filter out (and remove from the physics
world) every platform whose right edge is left of `cameraX - width * 2`. -/
def cullOldPlatforms (cfg : Config α) (width cameraX : α)
    (platforms : List (Platform α)) : List (Platform α) :=
  let cutoff := cameraX - width * 2
  platforms.filter fun p => ! decide (p.centerX + cfg.PLATFORM_LENGTH / 2 < cutoff)

/-- The initial-platform loop of `createWorld()`: `n` platforms remain to build,
`i` is the loop index (`gap = 0` exactly when `i = 0`), `currentEndX` is the
running right-edge frontier, `rands i` the random pair drawn at index `i`. -/
def buildInitial (cfg : Config α) (baseY : α) (rands : Nat → α × α) :
    Nat → Nat → α → SpawnState α
  | 0, _, currentEndX => ⟨[], currentEndX⟩
  | n + 1, i, currentEndX =>
    let gap := if i = 0 then 0
               else randBetween cfg.PLATFORM_GAP_MIN cfg.PLATFORM_GAP_MAX (rands i).1
    let centerX := currentEndX + gap + cfg.PLATFORM_LENGTH / 2
    let centerY := baseY +
      randBetween (-cfg.PLATFORM_Y_VARIATION) cfg.PLATFORM_Y_VARIATION (rands i).2
    let rest := buildInitial cfg baseY rands n (i + 1) (centerX + cfg.PLATFORM_LENGTH / 2)
    ⟨⟨centerX, centerY⟩ :: rest.platforms, rest.lastPlatformEndX⟩

/-- The full mutable game state of game.js (section 4, "World state variables"):
platform collection and frontier, camera, angle pair, run-distance state, the
ball's position, and the `running` flag. -/
structure GState (α : Type*) where
  platforms : List (Platform α)
  lastPlatformEndX : α
  cameraX : α
  platformAngle : α
  targetPlatformAngle : α
  startX : α
  distanceTravelled : α
  ballX : α
  ballY : α
  running : Bool

/-- `createWorld()` from game.js: clear the world, place the ball at
`(startX, baseY - 40)` with `startX = 0`, build `initialCount = 10` platforms
starting from `currentEndX = startX - len/2` (zero gap on the first), record
the final frontier, snap the camera to `ball.x - width * CAMERA_LEAD_RATIO`,
and zero both angles and the distance.  The source's `running` flag is a
separate variable not touched by `createWorld`, so it is passed through. -/
def createWorld (cfg : Config α) (width height : α) (rands : Nat → α × α)
    (running : Bool) : GState α :=
  let baseY := height * cfg.yBaseFrac
  let startX : α := 0
  let init := buildInitial cfg baseY rands 10 0 (startX - cfg.PLATFORM_LENGTH / 2)
  { platforms := init.platforms
    lastPlatformEndX := init.lastPlatformEndX
    cameraX := startX - width * cfg.cameraLeadFrac
    platformAngle := 0
    targetPlatformAngle := 0
    startX := startX
    distanceTravelled := 0
    ballX := startX
    ballY := baseY - 40
    running := running }

/-- Per-frame oracle inputs to `loop(timestamp)`: the frame's `dt` (seconds),
the input snapshot, the ball position returned by the external
`Engine.update` physics step, and the frame's `Math.random()` stream. -/
structure FrameIn where
  dt : ℚ
  tilt : TiltIn ℚ
  physBallX : ℚ
  physBallY : ℚ
  rands : Nat → ℚ × ℚ

/-- `stepPhysics(dtMs)` from game.js: `Engine.update` (external) yields the
ball's new position; if `ball.position.y > height * KILL_Y_MULTIPLIER` then
`onPlayerDied()` runs, whose state effect is `running = false`. -/
def stepPhysics (cfg : Config ℚ) (height ballX ballY : ℚ) (s : GState ℚ) : GState ℚ :=
  let s1 : GState ℚ := { s with ballX := ballX, ballY := ballY }
  let killY := height * cfg.KILL_Y_MULTIPLIER
  if s1.ballY > killY then { s1 with running := false } else s1

/-- One invocation of `loop(timestamp)` from game.js.  Returns the new state
and whether `requestAnimationFrame(loop)` was called: a non-`running` frame
returns immediately without scheduling; otherwise the frame runs
`applyPlatformAngle`, `stepPhysics`, `updateCamera`, `updateDistance`,
`maybeSpawnPlatforms`, `cullOldPlatforms` in order and always schedules the
next frame at the end. -/
def loopFrame (cfg : Config ℚ) (width height : ℚ) (fr : FrameIn) (s : GState ℚ) :
    GState ℚ × Bool :=
  if s.running then
    let s1 : GState ℚ :=
      { s with targetPlatformAngle := updateTargetPlatformAngle cfg fr.tilt
               platformAngle := applyPlatformAngle cfg fr.tilt fr.dt s.platformAngle }
    let s2 := stepPhysics cfg height fr.physBallX fr.physBallY s1
    let s3 : GState ℚ :=
      { s2 with cameraX := updateCamera cfg width s2.ballX fr.dt s2.cameraX }
    let s4 : GState ℚ :=
      { s3 with distanceTravelled := max 0 (s3.ballX - s3.startX) }
    let sp := maybeSpawnPlatforms cfg height width s4.cameraX fr.rands
      ⟨s4.platforms, s4.lastPlatformEndX⟩
    let s5 : GState ℚ :=
      { s4 with platforms := cullOldPlatforms cfg width s4.cameraX sp.platforms
                lastPlatformEndX := sp.lastPlatformEndX }
    (s5, true)
  else (s, false)

/-- The state reached after `n` frame callbacks starting from `s0`
(frame `n` consumes oracle `frames n`). -/
def runStates (cfg : Config ℚ) (width height : ℚ) (frames : Nat → FrameIn)
    (s0 : GState ℚ) : Nat → GState ℚ
  | 0 => s0
  | n + 1 => (loopFrame cfg width height (frames n) (runStates cfg width height frames s0 n)).1

/-- The platform-angle trajectory over frames while `Running`, starting from
the reset value `platformAngle = 0` set by `createWorld` and stepping with
`applyPlatformAngle` each frame (inputs and `dt` per frame are oracles). -/
def angleSeq (cfg : Config α) (inps : Nat → TiltIn α) (dts : Nat → α) : Nat → α
  | 0 => 0
  | n + 1 => applyPlatformAngle cfg (inps n) (dts n) (angleSeq cfg inps dts n)

/-- The x-gap contract between two consecutive platforms: the gap from the
right edge of `p` to the left edge of `q` lies in `[GAP_MIN, GAP_MAX]`. -/
def gapOk (cfg : Config α) (p q : Platform α) : Prop :=
  cfg.PLATFORM_GAP_MIN ≤ leftEdge cfg q - rightEdge cfg p ∧
    leftEdge cfg q - rightEdge cfg p ≤ cfg.PLATFORM_GAP_MAX

/-- The world-streamer invariant: consecutive platforms satisfy the gap
contract, and (when platforms exist) the frontier equals the right edge of the
most recently spawned platform. -/
def chainInv (cfg : Config α) (st : SpawnState α) : Prop :=
  st.platforms.Chain' (gapOk cfg) ∧
    ∀ p ∈ st.platforms.getLast?, rightEdge cfg p = st.lastPlatformEndX

/-- Frame oracle for the distance counterexample: the physics step reports
`ballX = 10` on frame 0 and `ballX = 5` afterwards (the ball is pushed
backward); the ball never approaches the kill line. -/
def cexFrames : Nat → FrameIn := fun n =>
  { dt := 0
    tilt := ⟨false, 0, false, false⟩
    physBallX := if n = 0 then 10 else 5
    physBallY := 0
    rands := fun _ => (0, 0) }

/-- Start state for the distance counterexample: a running run with the ball
at the origin and the frontier already two screens ahead. -/
def cexState : GState ℚ :=
  { platforms := []
    lastPlatformEndX := 100
    cameraX := 0
    platformAngle := 0
    targetPlatformAngle := 0
    startX := 0
    distanceTravelled := 0
    ballX := 0
    ballY := 0
    running := true }

/-- Frame oracle for the kill-frame counterexample: the physics step reports
the ball at `x = 9` and `y = 2010 = height * 2.01` for `height = 1000`. -/
def killFrame : FrameIn :=
  { dt := 0
    tilt := ⟨false, 0, false, false⟩
    physBallX := 9
    physBallY := 2010
    rands := fun _ => (0, 0) }

/-- Start state for the kill-frame counterexample: running, with
`distanceTravelled = 7` from the previous frame. -/
def killState : GState ℚ :=
  { platforms := []
    lastPlatformEndX := 100
    cameraX := 0
    platformAngle := 0
    targetPlatformAngle := 0
    startX := 0
    distanceTravelled := 7
    ballX := 7
    ballY := 0
    running := true }

/-! ## Helper lemmas -/

/-- A frame on a non-running state is the identity and schedules nothing
(`if (!running) return;` at the top of `loop`). -/
theorem loopFrame_notRunning (cfg : Config ℚ) (width height : ℚ) (fr : FrameIn)
    (s : GState ℚ) (h : s.running = false) :
    loopFrame cfg width height fr s = (s, false) := by
  rw [loopFrame, if_neg]
  rw [h]
  simp

/-- A running frame whose physics step does not cross the kill line keeps
`running = true`, sets `distanceTravelled = max 0 (ballX - startX)` from the
post-step ball position, and preserves `startX`. -/
theorem loopFrame_alive (cfg : Config ℚ) (width height : ℚ) (fr : FrameIn)
    (s : GState ℚ) (hrun : s.running = true)
    (hkill : ¬ height * cfg.KILL_Y_MULTIPLIER < fr.physBallY) :
    (loopFrame cfg width height fr s).1.distanceTravelled
        = max 0 (fr.physBallX - s.startX) ∧
    (loopFrame cfg width height fr s).1.running = true ∧
    (loopFrame cfg width height fr s).1.startX = s.startX := by
  rw [loopFrame, if_pos hrun]
  unfold stepPhysics
  dsimp only
  rw [if_neg hkill]
  exact ⟨rfl, hrun, rfl⟩

/-- A running frame whose physics step reports the ball below the kill line
sets `running = false`, still updates `distanceTravelled` afterwards in the
same frame, and still schedules one more callback. -/
theorem loopFrame_kill_aux (cfg : Config ℚ) (width height : ℚ) (fr : FrameIn)
    (s : GState ℚ) (hrun : s.running = true)
    (hkill : height * cfg.KILL_Y_MULTIPLIER < fr.physBallY) :
    (loopFrame cfg width height fr s).1.running = false ∧
    (loopFrame cfg width height fr s).2 = true ∧
    (loopFrame cfg width height fr s).1.distanceTravelled
        = max 0 (fr.physBallX - s.startX) ∧
    (loopFrame cfg width height fr s).1.startX = s.startX := by
  rw [loopFrame, if_pos hrun]
  unfold stepPhysics
  dsimp only
  rw [if_pos hkill]
  exact ⟨rfl, rfl, rfl, rfl⟩

/-- One `current += (target - current) * min(1, stiffness*dt)` step with
nonnegative stiffness and `dt` never crosses the target and never widens the
gap to it. -/
theorem lerpStep_no_overshoot (c tg s dt : α) (hs : 0 ≤ s) (hdt : 0 ≤ dt) :
    |tg - (c + (tg - c) * min 1 (s * dt))| ≤ |tg - c| ∧
      0 ≤ (tg - (c + (tg - c) * min 1 (s * dt))) * (tg - c) := by
  have ht0 : 0 ≤ min 1 (s * dt) := le_min zero_le_one (mul_nonneg hs hdt)
  have ht1 : min 1 (s * dt) ≤ 1 := min_le_left _ _
  constructor
  · have hgap : tg - (c + (tg - c) * min 1 (s * dt))
        = (tg - c) * (1 - min 1 (s * dt)) := by ring
    rw [hgap, abs_mul, abs_of_nonneg (by linarith : (0:α) ≤ 1 - min 1 (s * dt))]
    nlinarith [abs_nonneg (tg - c)]
  · have hgap : (tg - (c + (tg - c) * min 1 (s * dt))) * (tg - c)
        = (tg - c) ^ 2 * (1 - min 1 (s * dt)) := by ring
    rw [hgap]
    exact mul_nonneg (sq_nonneg _) (by linarith)

/-- The target angle produced by `updateTargetPlatformAngle` is always within
`[-MAX_PLATFORM_ANGLE_RAD, MAX_PLATFORM_ANGLE_RAD]` (for positive
`MAX_TILT_DEG` and nonnegative max angle), in both input modes. -/
theorem updateTarget_abs_le (cfg : Config α) (inp : TiltIn α)
    (h1 : 0 < cfg.MAX_TILT_DEG) (h2 : 0 ≤ cfg.MAX_PLATFORM_ANGLE_RAD) :
    |updateTargetPlatformAngle cfg inp| ≤ cfg.MAX_PLATFORM_ANGLE_RAD := by
  rcases inp with ⟨u, x, l, r⟩
  cases u with
  | false =>
    cases l <;> cases r <;>
      · rw [abs_le]
        refine ⟨?_, ?_⟩ <;> simp [updateTargetPlatformAngle] <;> linarith
  | true =>
    have hc1 : -cfg.MAX_TILT_DEG ≤ max (-cfg.MAX_TILT_DEG) (min cfg.MAX_TILT_DEG x) :=
      le_max_left _ _
    have hc2 : max (-cfg.MAX_TILT_DEG) (min cfg.MAX_TILT_DEG x) ≤ cfg.MAX_TILT_DEG :=
      max_le (by linarith) (min_le_left _ _)
    have hdiv : |max (-cfg.MAX_TILT_DEG) (min cfg.MAX_TILT_DEG x) / cfg.MAX_TILT_DEG| ≤ 1 := by
      rw [abs_div, abs_of_pos h1]
      exact (div_le_one h1).mpr (abs_le.mpr ⟨hc1, hc2⟩)
    calc |updateTargetPlatformAngle cfg ⟨true, x, l, r⟩|
        = |max (-cfg.MAX_TILT_DEG) (min cfg.MAX_TILT_DEG x) / cfg.MAX_TILT_DEG|
            * |cfg.MAX_PLATFORM_ANGLE_RAD| := by
          simp [updateTargetPlatformAngle, abs_mul]
      _ ≤ 1 * cfg.MAX_PLATFORM_ANGLE_RAD := by
          rw [abs_of_nonneg h2]
          exact mul_le_mul_of_nonneg_right hdiv h2
      _ = cfg.MAX_PLATFORM_ANGLE_RAD := one_mul _

/-- Each `spawnPlatform` call advances the frontier by exactly
`gap + PLATFORM_LENGTH = 340 + r * 60` (with the game's constants). -/
theorem spawnPlatform_endX (a height : ℚ) (r : ℚ × ℚ) (st : SpawnState ℚ) :
    (spawnPlatform (CONFIG a) height r st).lastPlatformEndX
      = st.lastPlatformEndX + 340 + r.1 * 60 := by
  simp only [spawnPlatform, randBetween, CONFIG]
  ring

/-- With nonnegative random draws, `fuel ≥ threshold - frontier` iterations of
the spawn loop push the frontier to at least the threshold (each iteration
advances it by at least `340 ≥ 1`). -/
theorem spawnLoop_reaches (a height th : ℚ) (rands : Nat → ℚ × ℚ)
    (hr : ∀ i, 0 ≤ (rands i).1) :
    ∀ (fuel k : Nat) (st : SpawnState ℚ), th - st.lastPlatformEndX ≤ (fuel : ℚ) →
      th ≤ (spawnLoop (CONFIG a) height th rands fuel k st).lastPlatformEndX := by
  intro fuel
  induction fuel with
  | zero =>
    intro k st h
    simp only [Nat.cast_zero] at h
    simpa [spawnLoop] using by linarith
  | succ fuel ih =>
    intro k st h
    by_cases hc : st.lastPlatformEndX < th
    · simp only [spawnLoop, if_pos hc]
      apply ih
      rw [spawnPlatform_endX]
      have hrk := hr k
      push_cast at h ⊢
      linarith
    · simp only [spawnLoop, if_neg hc]
      linarith [not_lt.mp hc]

/-- The `spawnFuel` bound dominates `threshold - frontier`. -/
theorem le_spawnFuel (th endX : ℚ) : th - endX ≤ (spawnFuel th endX : ℚ) := by
  have h1 := Int.le_ceil (th - endX)
  have h2 : (Int.ceil (th - endX) : ℚ) ≤ ((Int.ceil (th - endX)).toNat : ℚ) := by
    exact_mod_cast Int.self_le_toNat _
  exact le_trans h1 (by simpa [spawnFuel] using h2)

/-- Once the frontier has reached the threshold, the spawn loop is the
identity whatever fuel remains. -/
theorem spawnLoop_stopped (a height th : ℚ) (rands : Nat → ℚ × ℚ) (fuel k : Nat)
    (st : SpawnState ℚ) (h : ¬ st.lastPlatformEndX < th) :
    spawnLoop (CONFIG a) height th rands fuel k st = st := by
  cases fuel <;> simp [spawnLoop, h]

/-- Fuel beyond the point where the loop exit condition holds does not change
the spawn loop's result. -/
theorem spawnLoop_fuel_add (a height th : ℚ) (rands : Nat → ℚ × ℚ) :
    ∀ fuel extra k st,
      th ≤ (spawnLoop (CONFIG a) height th rands fuel k st).lastPlatformEndX →
      spawnLoop (CONFIG a) height th rands (fuel + extra) k st
        = spawnLoop (CONFIG a) height th rands fuel k st := by
  intro fuel
  induction fuel with
  | zero =>
    intro extra k st h
    have h0 : spawnLoop (CONFIG a) height th rands 0 k st = st := rfl
    rw [Nat.zero_add, h0]
    exact spawnLoop_stopped a height th rands extra k st (not_lt.mpr (by simpa [h0] using h))
  | succ fuel ih =>
    intro extra k st h
    have hsucc : fuel + 1 + extra = (fuel + extra) + 1 := by omega
    rw [hsucc]
    by_cases hc : st.lastPlatformEndX < th
    · simp only [spawnLoop, if_pos hc] at h ⊢
      exact ih extra (k + 1) _ h
    · simp only [spawnLoop, if_neg hc]

/-- Unfolding of one iteration of the initial-platform loop. -/
theorem buildInitial_succ (cfg : Config α) (baseY : α) (rands : Nat → α × α)
    (n i : Nat) (endX : α) :
    buildInitial cfg baseY rands (n + 1) i endX
      = ⟨⟨endX + (if i = 0 then 0
            else randBetween cfg.PLATFORM_GAP_MIN cfg.PLATFORM_GAP_MAX (rands i).1)
            + cfg.PLATFORM_LENGTH / 2,
          baseY + randBetween (-cfg.PLATFORM_Y_VARIATION) cfg.PLATFORM_Y_VARIATION (rands i).2⟩
          :: (buildInitial cfg baseY rands n (i + 1)
              (endX + (if i = 0 then 0
                else randBetween cfg.PLATFORM_GAP_MIN cfg.PLATFORM_GAP_MAX (rands i).1)
                + cfg.PLATFORM_LENGTH / 2 + cfg.PLATFORM_LENGTH / 2)).platforms,
        (buildInitial cfg baseY rands n (i + 1)
          (endX + (if i = 0 then 0
            else randBetween cfg.PLATFORM_GAP_MIN cfg.PLATFORM_GAP_MAX (rands i).1)
            + cfg.PLATFORM_LENGTH / 2 + cfg.PLATFORM_LENGTH / 2)).lastPlatformEndX⟩ := rfl

/-- Full characterization of the initial-platform loop: it builds `n`
platforms forming a gap-correct chain, the first one starting exactly at
`currentEndX` when `i = 0` and at a random gap in `[GAP_MIN, GAP_MAX]` past it
otherwise, and it tracks the frontier as the right edge of the last platform
built (or leaves it at `currentEndX` when `n = 0`). -/
theorem buildInitial_spec (a baseY : α) (rands : Nat → α × α)
    (hr : ∀ i, 0 ≤ (rands i).1 ∧ (rands i).1 ≤ 1) :
    ∀ (n i : Nat) (endX : α),
      (buildInitial (CONFIG a) baseY rands n i endX).platforms.length = n ∧
      (buildInitial (CONFIG a) baseY rands n i endX).platforms.Chain' (gapOk (CONFIG a)) ∧
      (i ≠ 0 → ∀ p ∈ (buildInitial (CONFIG a) baseY rands n i endX).platforms.head?,
        (CONFIG a).PLATFORM_GAP_MIN ≤ leftEdge (CONFIG a) p - endX ∧
          leftEdge (CONFIG a) p - endX ≤ (CONFIG a).PLATFORM_GAP_MAX) ∧
      (i = 0 → ∀ p ∈ (buildInitial (CONFIG a) baseY rands n i endX).platforms.head?,
        leftEdge (CONFIG a) p = endX) ∧
      (∀ p ∈ (buildInitial (CONFIG a) baseY rands n i endX).platforms.getLast?,
        rightEdge (CONFIG a) p
          = (buildInitial (CONFIG a) baseY rands n i endX).lastPlatformEndX) ∧
      ((buildInitial (CONFIG a) baseY rands n i endX).platforms = [] →
        (buildInitial (CONFIG a) baseY rands n i endX).lastPlatformEndX = endX) := by
  intro n
  induction n with
  | zero =>
    intro i endX
    refine ⟨rfl, List.chain'_nil, ?_, ?_, ?_, ?_⟩ <;> simp [buildInitial]
  | succ n ih =>
    intro i endX
    rw [buildInitial_succ]
    set g : α := (if i = 0 then 0
      else randBetween (CONFIG a).PLATFORM_GAP_MIN (CONFIG a).PLATFORM_GAP_MAX (rands i).1)
      with hg
    obtain ⟨ihlen, ihchain, ihhead, _, ihlast, ihnil⟩ :=
      ih (i + 1) (endX + g + (CONFIG a).PLATFORM_LENGTH / 2 + (CONFIG a).PLATFORM_LENGTH / 2)
    refine ⟨by simpa using ihlen, ?_, ?_, ?_, ?_, by simp⟩
    · rw [List.chain'_cons']
      refine ⟨?_, ihchain⟩
      intro b hb
      have hbp := ihhead (Nat.succ_ne_zero i) b hb
      unfold gapOk
      rw [show rightEdge (CONFIG a)
          ⟨endX + g + (CONFIG a).PLATFORM_LENGTH / 2,
            baseY + randBetween (-(CONFIG a).PLATFORM_Y_VARIATION)
              (CONFIG a).PLATFORM_Y_VARIATION (rands i).2⟩
          = endX + g + (CONFIG a).PLATFORM_LENGTH / 2 + (CONFIG a).PLATFORM_LENGTH / 2
        from by rw [rightEdge]]
      exact hbp
    · intro hi p hp
      simp only [List.head?_cons, Option.mem_def, Option.some.injEq] at hp
      subst hp
      rw [hg, if_neg hi]
      constructor <;>
        · simp only [leftEdge, CONFIG, randBetween]
          nlinarith [(hr i).1, (hr i).2]
    · intro hi p hp
      simp only [List.head?_cons, Option.mem_def, Option.some.injEq] at hp
      subst hp
      rw [leftEdge, hg, if_pos hi]
      ring
    · intro p hp
      rcases hrest : (buildInitial (CONFIG a) baseY rands n (i + 1)
          (endX + g + (CONFIG a).PLATFORM_LENGTH / 2
            + (CONFIG a).PLATFORM_LENGTH / 2)).platforms with _ | ⟨q, qs⟩
      · rw [hrest] at hp
        simp only [List.getLast?_singleton, Option.mem_def, Option.some.injEq] at hp
        subst hp
        rw [ihnil hrest, rightEdge]
      · rw [hrest] at hp
        rw [List.getLast?_cons_cons] at hp
        have := ihlast p (by rw [hrest]; exact hp)
        exact this

/-- **C5** — immediately after `maybeSpawnPlatforms` returns, the frontier
`lastPlatformEndX` is at least `cameraX + 2 * screenWidth`. -/
theorem spawn_ahead_inv (a height width cameraX : ℚ) (rands : Nat → ℚ × ℚ)
    (st : SpawnState ℚ) (hr : ∀ i, 0 ≤ (rands i).1) :
    cameraX + width * 2
      ≤ (maybeSpawnPlatforms (CONFIG a) height width cameraX rands st).lastPlatformEndX := by
  unfold maybeSpawnPlatforms
  exact spawnLoop_reaches a height _ rands hr _ 0 st (le_spawnFuel _ _)

/-- Witness for `spawn_ahead_inv`: empty world, zero random stream. -/
theorem spawn_ahead_inv_witness :
    (∀ i : Nat, (0 : ℚ) ≤ ((fun _ : Nat => ((0 : ℚ), (0 : ℚ))) i).1) ∧
    (0 : ℚ) + 800 * 2
      ≤ (maybeSpawnPlatforms (CONFIG (1 : ℚ)) 600 800 0 (fun _ => (0, 0))
          ⟨[], 0⟩).lastPlatformEndX :=
  ⟨fun _ => le_refl 0,
    spawn_ahead_inv 1 600 800 0 (fun _ => (0, 0)) ⟨[], 0⟩ (fun _ => le_refl 0)⟩

/-- **C10** — `maybeSpawnPlatforms` always terminates: every `spawnPlatform`
call advances the frontier by `gap + PLATFORM_LENGTH ≥ 340`, so the spawn loop
runs only finitely many iterations: with the fuel bound `spawnFuel`, adding
any extra fuel leaves the result unchanged. -/
theorem maybeSpawnPlatforms_terminates (a height width cameraX : ℚ)
    (rands : Nat → ℚ × ℚ) (st : SpawnState ℚ) (hr : ∀ i, 0 ≤ (rands i).1) :
    (∀ k, ∀ st' : SpawnState ℚ, st'.lastPlatformEndX + 340
        ≤ (spawnPlatform (CONFIG a) height (rands k) st').lastPlatformEndX) ∧
    ∀ extra, spawnLoop (CONFIG a) height (cameraX + width * 2) rands
        (spawnFuel (cameraX + width * 2) st.lastPlatformEndX + extra) 0 st
      = maybeSpawnPlatforms (CONFIG a) height width cameraX rands st := by
  constructor
  · intro k st'
    rw [spawnPlatform_endX]
    have := hr k
    linarith
  · intro extra
    unfold maybeSpawnPlatforms
    exact spawnLoop_fuel_add a height _ rands _ extra 0 st
      (spawnLoop_reaches a height _ rands hr _ 0 st (le_spawnFuel _ _))

/-- Witness for `maybeSpawnPlatforms_terminates`: empty world, zero stream,
five units of extra fuel. -/
theorem maybeSpawnPlatforms_terminates_witness :
    ((⟨[], 0⟩ : SpawnState ℚ).lastPlatformEndX + 340
        ≤ (spawnPlatform (CONFIG (1 : ℚ)) 600 ((fun _ : Nat => ((0 : ℚ), (0 : ℚ))) 0)
            ⟨[], 0⟩).lastPlatformEndX) ∧
    spawnLoop (CONFIG (1 : ℚ)) 600 ((0 : ℚ) + 800 * 2) (fun _ => (0, 0))
        (spawnFuel ((0 : ℚ) + 800 * 2) (⟨[], (0 : ℚ)⟩ : SpawnState ℚ).lastPlatformEndX + 5)
        0 ⟨[], 0⟩
      = maybeSpawnPlatforms (CONFIG (1 : ℚ)) 600 800 0 (fun _ => (0, 0)) ⟨[], 0⟩ :=
  ⟨(maybeSpawnPlatforms_terminates 1 600 800 0 (fun _ => (0, 0)) ⟨[], 0⟩
      (fun _ => le_refl 0)).1 0 ⟨[], 0⟩,
    (maybeSpawnPlatforms_terminates 1 600 800 0 (fun _ => (0, 0)) ⟨[], 0⟩
      (fun _ => le_refl 0)).2 5⟩

/-- **C6** — `cullOldPlatforms` removes exactly those platforms whose right
edge is less than `cameraX - 2 * screenWidth`, preserves the relative order of
the survivors (sublist), and afterwards every live platform's right edge is at
least `cameraX - 2 * screenWidth`. -/
theorem cullOldPlatforms_spec (a width cameraX : α) (ps : List (Platform α)) :
    (cullOldPlatforms (CONFIG a) width cameraX ps).Sublist ps ∧
    (∀ p ∈ cullOldPlatforms (CONFIG a) width cameraX ps,
        cameraX - width * 2 ≤ rightEdge (CONFIG a) p) ∧
    (∀ p ∈ ps, cameraX - width * 2 ≤ rightEdge (CONFIG a) p →
        p ∈ cullOldPlatforms (CONFIG a) width cameraX ps) ∧
    (∀ p ∈ ps, rightEdge (CONFIG a) p < cameraX - width * 2 →
        p ∉ cullOldPlatforms (CONFIG a) width cameraX ps) := by
  refine ⟨List.filter_sublist _, ?_, ?_, ?_⟩
  · intro p hp
    rw [cullOldPlatforms, List.mem_filter] at hp
    have := hp.2
    simp only [Bool.not_eq_true', decide_eq_false_iff_not, not_lt] at this
    simpa [rightEdge] using this
  · intro p hp hedge
    rw [cullOldPlatforms, List.mem_filter]
    refine ⟨hp, ?_⟩
    simp only [Bool.not_eq_true', decide_eq_false_iff_not, not_lt]
    simpa [rightEdge] using hedge
  · intro p _ hedge hmem
    rw [cullOldPlatforms, List.mem_filter] at hmem
    have := hmem.2
    simp only [Bool.not_eq_true', decide_eq_false_iff_not, not_lt] at this
    rw [rightEdge] at hedge
    linarith

/-- Witness for `cullOldPlatforms_spec`: a platform at the origin survives a
cull with `cameraX = 0`, `width = 100`. -/
theorem cullOldPlatforms_spec_witness :
    (⟨0, 0⟩ : Platform ℚ) ∈ cullOldPlatforms (CONFIG (1 : ℚ)) 100 0 [⟨0, 0⟩] :=
  (cullOldPlatforms_spec 1 100 0 [⟨0, 0⟩]).2.2.1 ⟨0, 0⟩ (by simp)
    (by norm_num [rightEdge, CONFIG])

/-- **C1 (counterexample)** — after a reset with the game's constants
(screenWidth 800, PLATFORM_LENGTH 260, gaps 80–140) and the zero random
stream, the first platform's centerX is `0` — not `-130` as the claim states
(the claim's own formula `startX - length/2 + length/2` also evaluates to
`startX = 0`; `-130` is the first platform's *left edge*). -/
theorem createWorld_first_centerX_cex :
    ((createWorld (CONFIG (0 : ℚ)) 800 600 (fun _ => (0, 0)) true).platforms.head?.map
        Platform.centerX = some 0) ∧
    ¬ ((createWorld (CONFIG (0 : ℚ)) 800 600 (fun _ => (0, 0)) true).platforms.head?.map
        Platform.centerX = some (-130)) := by
  have hplat : (createWorld (CONFIG (0 : ℚ)) 800 600 (fun _ => (0, 0)) true).platforms
      = (buildInitial (CONFIG (0 : ℚ)) (600 * (CONFIG (0 : ℚ)).yBaseFrac) (fun _ => (0, 0))
          10 0 (0 - (CONFIG (0 : ℚ)).PLATFORM_LENGTH / 2)).platforms := rfl
  rw [hplat, show (10 : Nat) = 9 + 1 from rfl, buildInitial_succ]
  simp only [List.head?_cons, Option.map_some', Option.some.injEq]
  constructor
  · norm_num [CONFIG]
  · norm_num [CONFIG]

/-- **C1 (amended)** — after a world reset with the game's constants, exactly
10 platforms exist, the first platform's centerX is `0` (so its left edge is
at `startX - PLATFORM_LENGTH/2 = -130`), and every subsequent platform's left
edge is at least the previous platform's right edge + 80 and at most the
previous platform's right edge + 140. -/
theorem createWorld_reset_spec (a width height : α) (rands : Nat → α × α)
    (hr : ∀ i, 0 ≤ (rands i).1 ∧ (rands i).1 ≤ 1) (run0 : Bool) :
    (createWorld (CONFIG a) width height rands run0).platforms.length = 10 ∧
    (createWorld (CONFIG a) width height rands run0).platforms.head?.map
        Platform.centerX = some 0 ∧
    (createWorld (CONFIG a) width height rands run0).platforms.Chain'
      (fun p q => rightEdge (CONFIG a) p + 80 ≤ leftEdge (CONFIG a) q ∧
        leftEdge (CONFIG a) q ≤ rightEdge (CONFIG a) p + 140) := by
  have hplat : (createWorld (CONFIG a) width height rands run0).platforms
      = (buildInitial (CONFIG a) (height * (CONFIG a).yBaseFrac) rands 10 0
          (0 - (CONFIG a).PLATFORM_LENGTH / 2)).platforms := rfl
  obtain ⟨hlen, hchain, _, hhead0, _, _⟩ :=
    buildInitial_spec a (height * (CONFIG a).yBaseFrac) rands hr 10 0
      (0 - (CONFIG a).PLATFORM_LENGTH / 2)
  refine ⟨by rw [hplat]; exact hlen, ?_, ?_⟩
  · rw [hplat]
    rcases hps : (buildInitial (CONFIG a) (height * (CONFIG a).yBaseFrac) rands 10 0
        (0 - (CONFIG a).PLATFORM_LENGTH / 2)).platforms with _ | ⟨p, l⟩
    · rw [hps] at hlen
      simp at hlen
    · have hle : leftEdge (CONFIG a) p = 0 - (CONFIG a).PLATFORM_LENGTH / 2 := by
        apply hhead0 rfl p
        rw [hps]
        rfl
      rw [leftEdge] at hle
      simp only [List.head?_cons, Option.map_some']
      congr 1
      linarith
  · rw [hplat]
    refine hchain.imp ?_
    intro p q hpq
    obtain ⟨h1, h2⟩ := hpq
    have hmin : (CONFIG a).PLATFORM_GAP_MIN = (80 : α) := rfl
    have hmax : (CONFIG a).PLATFORM_GAP_MAX = (140 : α) := rfl
    rw [hmin] at h1
    rw [hmax] at h2
    constructor <;> linarith

/-- Witness for `createWorld_reset_spec` at the zero random stream. -/
theorem createWorld_reset_spec_witness :
    (createWorld (CONFIG (1 : ℚ)) 800 600 (fun _ => (0, 0)) true).platforms.length = 10 ∧
    (createWorld (CONFIG (1 : ℚ)) 800 600 (fun _ => (0, 0)) true).platforms.head?.map
        Platform.centerX = some 0 ∧
    (createWorld (CONFIG (1 : ℚ)) 800 600 (fun _ => (0, 0)) true).platforms.Chain'
      (fun p q => rightEdge (CONFIG (1 : ℚ)) p + 80 ≤ leftEdge (CONFIG (1 : ℚ)) q ∧
        leftEdge (CONFIG (1 : ℚ)) q ≤ rightEdge (CONFIG (1 : ℚ)) p + 140) :=
  createWorld_reset_spec 1 800 600 (fun _ => (0, 0))
    (fun _ => ⟨le_refl 0, zero_le_one⟩) true

/-- **C7** — platforms form a left-to-right chain whose consecutive gaps lie
in `[GAP_MIN, GAP_MAX]`: the invariant (together with the frontier matching
the last platform's right edge) holds after world reset, is preserved by every
`spawnPlatform` call, and implies that no two platforms overlap in x. -/
theorem platform_chain_inv (a width height : α) (rands : Nat → α × α)
    (hr : ∀ i, 0 ≤ (rands i).1 ∧ (rands i).1 ≤ 1) (run0 : Bool) (r : α × α)
    (hr1 : 0 ≤ r.1) (hr2 : r.1 ≤ 1) :
    chainInv (CONFIG a) ⟨(createWorld (CONFIG a) width height rands run0).platforms,
        (createWorld (CONFIG a) width height rands run0).lastPlatformEndX⟩ ∧
    (∀ st : SpawnState α, chainInv (CONFIG a) st →
        chainInv (CONFIG a) (spawnPlatform (CONFIG a) height r st)) ∧
    (∀ st : SpawnState α, chainInv (CONFIG a) st →
        st.platforms.Pairwise fun p q =>
          rightEdge (CONFIG a) p < leftEdge (CONFIG a) q) := by
  refine ⟨?_, ?_, ?_⟩
  · obtain ⟨_, hchain, _, _, hlast, _⟩ :=
      buildInitial_spec a (height * (CONFIG a).yBaseFrac) rands hr 10 0
        (0 - (CONFIG a).PLATFORM_LENGTH / 2)
    exact ⟨hchain, hlast⟩
  · rintro ⟨ps, endX⟩ ⟨hchain, hlast⟩
    have hre : rightEdge (CONFIG a)
        ⟨endX + randBetween (CONFIG a).PLATFORM_GAP_MIN (CONFIG a).PLATFORM_GAP_MAX r.1
            + (CONFIG a).PLATFORM_LENGTH / 2,
          height * (CONFIG a).yBaseFrac
            + randBetween (-(CONFIG a).PLATFORM_Y_VARIATION)
              (CONFIG a).PLATFORM_Y_VARIATION r.2⟩
        = endX + randBetween (CONFIG a).PLATFORM_GAP_MIN (CONFIG a).PLATFORM_GAP_MAX r.1
            + (CONFIG a).PLATFORM_LENGTH / 2 + (CONFIG a).PLATFORM_LENGTH / 2 := rfl
    constructor
    · apply List.Chain'.append hchain (List.chain'_singleton _)
      intro x hx y hy
      simp only [List.head?_cons, Option.mem_def, Option.some.injEq] at hy
      subst hy
      have hx' : rightEdge (CONFIG a) x = endX := hlast x hx
      unfold gapOk
      dsimp only [leftEdge]
      rw [hx']
      have h80 : (CONFIG a).PLATFORM_GAP_MIN = (80 : α) := rfl
      have h140 : (CONFIG a).PLATFORM_GAP_MAX = (140 : α) := rfl
      have hgap1 : (CONFIG a).PLATFORM_GAP_MIN
          ≤ randBetween (CONFIG a).PLATFORM_GAP_MIN (CONFIG a).PLATFORM_GAP_MAX r.1 := by
        rw [h80, h140]
        simp only [randBetween]
        nlinarith
      have hgap2 : randBetween (CONFIG a).PLATFORM_GAP_MIN (CONFIG a).PLATFORM_GAP_MAX r.1
          ≤ (CONFIG a).PLATFORM_GAP_MAX := by
        rw [h80, h140]
        simp only [randBetween]
        nlinarith
      constructor <;> linarith
    · intro p hp
      simp only [spawnPlatform, List.getLast?_concat, Option.mem_def,
        Option.some.injEq] at hp
      subst hp
      exact hre
  · rintro ⟨ps, endX⟩ ⟨hchain, _⟩
    have hL : (CONFIG a).PLATFORM_LENGTH = (260 : α) := rfl
    haveI : IsTrans (Platform α)
        (fun p q => rightEdge (CONFIG a) p < leftEdge (CONFIG a) q) := by
      constructor
      intro p q s hpq hqs
      have hq : leftEdge (CONFIG a) q ≤ rightEdge (CONFIG a) q := by
        rw [leftEdge, rightEdge, hL]
        linarith [show (0 : α) ≤ 260 / 2 by norm_num]
      exact lt_of_lt_of_le hpq (le_trans hq (le_of_lt hqs))
    rw [← List.chain'_iff_pairwise]
    refine hchain.imp ?_
    intro p q hpq
    have h1 : (CONFIG a).PLATFORM_GAP_MIN
        ≤ leftEdge (CONFIG a) q - rightEdge (CONFIG a) p := hpq.1
    have hmin : (CONFIG a).PLATFORM_GAP_MIN = (80 : α) := rfl
    rw [hmin] at h1
    linarith [show (0 : α) < 80 from by norm_num]

/-- Witness for `platform_chain_inv`: the reset world at the zero random
stream satisfies the chain invariant, spawning with a zero draw preserves it,
and it yields pairwise non-overlap. -/
theorem platform_chain_inv_witness :
    chainInv (CONFIG (1 : ℚ))
      ⟨(createWorld (CONFIG (1 : ℚ)) 800 600 (fun _ => (0, 0)) true).platforms,
        (createWorld (CONFIG (1 : ℚ)) 800 600 (fun _ => (0, 0)) true).lastPlatformEndX⟩ ∧
    (∀ st : SpawnState ℚ, chainInv (CONFIG (1 : ℚ)) st →
        chainInv (CONFIG (1 : ℚ)) (spawnPlatform (CONFIG (1 : ℚ)) 600 ((0 : ℚ), (0 : ℚ)) st)) ∧
    (∀ st : SpawnState ℚ, chainInv (CONFIG (1 : ℚ)) st →
        st.platforms.Pairwise fun p q =>
          rightEdge (CONFIG (1 : ℚ)) p < leftEdge (CONFIG (1 : ℚ)) q) :=
  platform_chain_inv 1 800 600 (fun _ => (0, 0))
    (fun _ => ⟨le_refl 0, zero_le_one⟩) true ((0 : ℚ), (0 : ℚ)) (le_refl 0) zero_le_one

/-- **C4** — for every frame while Running, with frame `dt ≥ 0` and arbitrary
per-frame inputs in either mode (tilt or keyboard), `platformAngle` stays
within `[-MAX_PLATFORM_ANGLE_RAD, MAX_PLATFORM_ANGLE_RAD]` after the
angle-smoothing step, starting from `platformAngle = 0` at world reset. -/
theorem platformAngle_bounded (cfg : Config α) (inps : Nat → TiltIn α) (dts : Nat → α)
    (h1 : 0 < cfg.MAX_TILT_DEG) (h2 : 0 ≤ cfg.MAX_PLATFORM_ANGLE_RAD)
    (h3 : 0 ≤ cfg.PLATFORM_ANGLE_LERP) (hdt : ∀ n, 0 ≤ dts n) :
    ∀ n, |angleSeq cfg inps dts n| ≤ cfg.MAX_PLATFORM_ANGLE_RAD := by
  intro n
  induction n with
  | zero => simpa [angleSeq] using h2
  | succ n ih =>
    have htar := updateTarget_abs_le cfg (inps n) h1 h2
    have ht0 : 0 ≤ min 1 (cfg.PLATFORM_ANGLE_LERP * dts n) :=
      le_min zero_le_one (mul_nonneg h3 (hdt n))
    have ht1 : min 1 (cfg.PLATFORM_ANGLE_LERP * dts n) ≤ 1 := min_le_left _ _
    rw [abs_le] at htar ih ⊢
    obtain ⟨htg1, htg2⟩ := htar
    obtain ⟨hc1, hc2⟩ := ih
    have hnew : angleSeq cfg inps dts (n + 1)
        = angleSeq cfg inps dts n
          + (updateTargetPlatformAngle cfg (inps n) - angleSeq cfg inps dts n)
            * min 1 (cfg.PLATFORM_ANGLE_LERP * dts n) := rfl
    rw [hnew]
    constructor
    · nlinarith [mul_nonneg ht0
          (by linarith : (0:α) ≤ updateTargetPlatformAngle cfg (inps n)
            + cfg.MAX_PLATFORM_ANGLE_RAD),
        mul_nonneg (by linarith : (0:α) ≤ 1 - min 1 (cfg.PLATFORM_ANGLE_LERP * dts n))
          (by linarith : (0:α) ≤ angleSeq cfg inps dts n + cfg.MAX_PLATFORM_ANGLE_RAD)]
    · nlinarith [mul_nonneg ht0
          (by linarith : (0:α) ≤ cfg.MAX_PLATFORM_ANGLE_RAD
            - updateTargetPlatformAngle cfg (inps n)),
        mul_nonneg (by linarith : (0:α) ≤ 1 - min 1 (cfg.PLATFORM_ANGLE_LERP * dts n))
          (by linarith : (0:α) ≤ cfg.MAX_PLATFORM_ANGLE_RAD - angleSeq cfg inps dts n)]

/-- Witness for `platformAngle_bounded` at `ℚ`, `CONFIG 1`, three frames of
keyboard right-press with `dt = 1/2`. -/
theorem platformAngle_bounded_witness :
    (0 : ℚ) < (CONFIG (1 : ℚ)).MAX_TILT_DEG ∧
    (0 : ℚ) ≤ (CONFIG (1 : ℚ)).MAX_PLATFORM_ANGLE_RAD ∧
    (0 : ℚ) ≤ (CONFIG (1 : ℚ)).PLATFORM_ANGLE_LERP ∧
    |angleSeq (CONFIG (1 : ℚ)) (fun _ => ⟨false, 0, false, true⟩) (fun _ => 1 / 2) 3|
      ≤ (CONFIG (1 : ℚ)).MAX_PLATFORM_ANGLE_RAD :=
  ⟨by norm_num [CONFIG], by norm_num [CONFIG], by norm_num [CONFIG],
    platformAngle_bounded (CONFIG (1 : ℚ)) (fun _ => ⟨false, 0, false, true⟩)
      (fun _ => 1 / 2) (by norm_num [CONFIG]) (by norm_num [CONFIG])
      (by norm_num [CONFIG]) (fun n => by norm_num) 3⟩

/-- **C8** — `updateTargetPlatformAngle`: in tilt mode the target is
`clamp(tiltX, -MAX_TILT_DEG, MAX_TILT_DEG) / MAX_TILT_DEG * MAX_PLATFORM_ANGLE_RAD`,
and for `tiltX = 50`, `MAX_TILT_DEG = 25`, `MAX_PLATFORM_ANGLE_RAD = π/5` it is
exactly `π/5`; in keyboard mode it is `-π/5` while only left is held, `+π/5`
while only right is held, and `0` when neither or both are held. -/
theorem updateTargetPlatformAngle_spec :
    (∀ x : ℝ, ∀ l r : Bool,
        updateTargetPlatformAngle (CONFIG (Real.pi / 5)) ⟨true, x, l, r⟩
          = max (-(25 : ℝ)) (min 25 x) / 25 * (Real.pi / 5)) ∧
    updateTargetPlatformAngle (CONFIG (Real.pi / 5)) ⟨true, 50, false, false⟩
        = Real.pi / 5 ∧
    (∀ x : ℝ, updateTargetPlatformAngle (CONFIG (Real.pi / 5)) ⟨false, x, true, false⟩
        = -(Real.pi / 5)) ∧
    (∀ x : ℝ, updateTargetPlatformAngle (CONFIG (Real.pi / 5)) ⟨false, x, false, true⟩
        = Real.pi / 5) ∧
    (∀ x : ℝ, updateTargetPlatformAngle (CONFIG (Real.pi / 5)) ⟨false, x, false, false⟩
        = 0) ∧
    (∀ x : ℝ, updateTargetPlatformAngle (CONFIG (Real.pi / 5)) ⟨false, x, true, true⟩
        = 0) := by
  refine ⟨fun x l r => rfl, ?_, fun x => ?_, fun x => ?_, fun x => ?_, fun x => ?_⟩
  · show max (-(25 : ℝ)) (min 25 50) / 25 * (Real.pi / 5) = Real.pi / 5
    norm_num
  all_goals simp [updateTargetPlatformAngle, CONFIG]

/-- **C9** — for every `dt ≥ 0` (including arbitrarily large `dt`), one
smoothing step never moves `platformAngle` past `targetPlatformAngle` nor
`cameraX` past `desiredCameraX` — the gap to the target keeps its sign and
never grows — and for `dt = 1/10` with `CAMERA_LERP = 6` the camera moves
exactly 60% of the way toward `desiredCameraX`. -/
theorem smoothing_no_overshoot (a w bx cam cur dt : α) (inp : TiltIn α)
    (hdt : 0 ≤ dt) :
    |updateTargetPlatformAngle (CONFIG a) inp - applyPlatformAngle (CONFIG a) inp dt cur|
        ≤ |updateTargetPlatformAngle (CONFIG a) inp - cur| ∧
    0 ≤ (updateTargetPlatformAngle (CONFIG a) inp - applyPlatformAngle (CONFIG a) inp dt cur)
        * (updateTargetPlatformAngle (CONFIG a) inp - cur) ∧
    |desiredCameraX (CONFIG a) w bx - updateCamera (CONFIG a) w bx dt cam|
        ≤ |desiredCameraX (CONFIG a) w bx - cam| ∧
    0 ≤ (desiredCameraX (CONFIG a) w bx - updateCamera (CONFIG a) w bx dt cam)
        * (desiredCameraX (CONFIG a) w bx - cam) ∧
    updateCamera (CONFIG a) w bx (1 / 10) cam - cam
        = (desiredCameraX (CONFIG a) w bx - cam) * (3 / 5) := by
  have hangle := lerpStep_no_overshoot cur (updateTargetPlatformAngle (CONFIG a) inp)
    ((CONFIG a).PLATFORM_ANGLE_LERP) dt (by norm_num [CONFIG]) hdt
  have hcam := lerpStep_no_overshoot cam (desiredCameraX (CONFIG a) w bx)
    ((CONFIG a).CAMERA_LERP) dt (by norm_num [CONFIG]) hdt
  refine ⟨hangle.1, hangle.2, hcam.1, hcam.2, ?_⟩
  have h610 : (CONFIG a).CAMERA_LERP * ((1 : α) / 10) = 3 / 5 := by
    norm_num [CONFIG]
  show cam + (desiredCameraX (CONFIG a) w bx - cam)
      * min 1 ((CONFIG a).CAMERA_LERP * (1 / 10)) - cam
      = (desiredCameraX (CONFIG a) w bx - cam) * (3 / 5)
  rw [h610, min_eq_right (by norm_num : (3 : α) / 5 ≤ 1)]
  ring

/-- Witness for `smoothing_no_overshoot` at `ℚ`, `a = 1`, `dt = 2`. -/
theorem smoothing_no_overshoot_witness :
    (0 : ℚ) ≤ 2 ∧
    (|updateTargetPlatformAngle (CONFIG (1 : ℚ)) ⟨false, 0, false, true⟩
          - applyPlatformAngle (CONFIG (1 : ℚ)) ⟨false, 0, false, true⟩ 2 0|
        ≤ |updateTargetPlatformAngle (CONFIG (1 : ℚ)) ⟨false, 0, false, true⟩ - 0| ∧
      0 ≤ (updateTargetPlatformAngle (CONFIG (1 : ℚ)) ⟨false, 0, false, true⟩
            - applyPlatformAngle (CONFIG (1 : ℚ)) ⟨false, 0, false, true⟩ 2 0)
          * (updateTargetPlatformAngle (CONFIG (1 : ℚ)) ⟨false, 0, false, true⟩ - 0) ∧
      |desiredCameraX (CONFIG (1 : ℚ)) 800 100 - updateCamera (CONFIG (1 : ℚ)) 800 100 2 0|
          ≤ |desiredCameraX (CONFIG (1 : ℚ)) 800 100 - 0| ∧
      0 ≤ (desiredCameraX (CONFIG (1 : ℚ)) 800 100 - updateCamera (CONFIG (1 : ℚ)) 800 100 2 0)
          * (desiredCameraX (CONFIG (1 : ℚ)) 800 100 - 0) ∧
      updateCamera (CONFIG (1 : ℚ)) 800 100 (1 / 10) 0 - 0
          = (desiredCameraX (CONFIG (1 : ℚ)) 800 100 - 0) * (3 / 5)) :=
  ⟨by norm_num,
    smoothing_no_overshoot 1 800 100 0 0 2 ⟨false, 0, false, true⟩ (by norm_num)⟩

/-- **C2 (counterexample)** — `distanceTravelled` is not monotonic while
running: with the physics oracle moving the ball from `x = 10` back to
`x = 5`, the distance after frame 2 (namely 5) is smaller than after
frame 1 (namely 10), refuting "never smaller than the previous frame's". -/
theorem distance_not_monotone_cex :
    (runStates (CONFIG 0) 1 1000 cexFrames cexState 1).distanceTravelled = 10 ∧
    (runStates (CONFIG 0) 1 1000 cexFrames cexState 2).distanceTravelled = 5 ∧
    ¬ ((runStates (CONFIG 0) 1 1000 cexFrames cexState 1).distanceTravelled
        ≤ (runStates (CONFIG 0) 1 1000 cexFrames cexState 2).distanceTravelled) := by
  have h0run : cexState.running = true := rfl
  have hk0 : ¬ (1000 : ℚ) * (CONFIG (0 : ℚ)).KILL_Y_MULTIPLIER
      < (cexFrames 0).physBallY := by
    norm_num [cexFrames, CONFIG]
  have h1 := loopFrame_alive (CONFIG 0) 1 1000 (cexFrames 0) cexState h0run hk0
  have e1 : runStates (CONFIG 0) 1 1000 cexFrames cexState 1
      = (loopFrame (CONFIG 0) 1 1000 (cexFrames 0) cexState).1 := rfl
  have hd1 : (runStates (CONFIG 0) 1 1000 cexFrames cexState 1).distanceTravelled = 10 := by
    rw [e1, h1.1]
    norm_num [cexFrames, cexState, max_def]
  have hrun1 : (runStates (CONFIG 0) 1 1000 cexFrames cexState 1).running = true := by
    rw [e1]
    exact h1.2.1
  have hsx1 : (runStates (CONFIG 0) 1 1000 cexFrames cexState 1).startX = 0 := by
    rw [e1, h1.2.2]
    rfl
  have hk1 : ¬ (1000 : ℚ) * (CONFIG (0 : ℚ)).KILL_Y_MULTIPLIER
      < (cexFrames 1).physBallY := by
    norm_num [cexFrames, CONFIG]
  have h2 := loopFrame_alive (CONFIG 0) 1 1000 (cexFrames 1)
    (runStates (CONFIG 0) 1 1000 cexFrames cexState 1) hrun1 hk1
  have e2 : runStates (CONFIG 0) 1 1000 cexFrames cexState 2
      = (loopFrame (CONFIG 0) 1 1000 (cexFrames 1)
          (runStates (CONFIG 0) 1 1000 cexFrames cexState 1)).1 := rfl
  have hd2 : (runStates (CONFIG 0) 1 1000 cexFrames cexState 2).distanceTravelled = 5 := by
    rw [e2, h2.1, hsx1]
    norm_num [cexFrames, max_def]
  refine ⟨hd1, hd2, ?_⟩
  rw [hd1, hd2]
  norm_num

/-- **C2 (amended)** — `distanceTravelled` is `0` at world reset and `≥ 0`
after every frame of a run; it is however not monotonic, since it is
recomputed each frame as `max 0 (ball.x - startX)` from the ball's current
position and so decreases whenever the physics pushes the ball backward. -/
theorem distance_nonneg (cfg : Config ℚ) (width height : ℚ) (frames : Nat → FrameIn)
    (s0 : GState ℚ) (h0 : 0 ≤ s0.distanceTravelled) :
    (∀ (w2 h2 : ℚ) (rands : Nat → ℚ × ℚ) (b : Bool),
        (createWorld cfg w2 h2 rands b).distanceTravelled = 0) ∧
    ∀ n, 0 ≤ (runStates cfg width height frames s0 n).distanceTravelled := by
  refine ⟨fun _ _ _ _ => rfl, ?_⟩
  intro n
  induction n with
  | zero => exact h0
  | succ n ih =>
    show 0 ≤ (loopFrame cfg width height (frames n)
      (runStates cfg width height frames s0 n)).1.distanceTravelled
    by_cases hrun : (runStates cfg width height frames s0 n).running = true
    · by_cases hkill : height * cfg.KILL_Y_MULTIPLIER < (frames n).physBallY
      · rw [(loopFrame_kill_aux cfg width height (frames n) _ hrun hkill).2.2.1]
        exact le_max_left 0 _
      · rw [(loopFrame_alive cfg width height (frames n) _ hrun hkill).1]
        exact le_max_left 0 _
    · have hrun' : (runStates cfg width height frames s0 n).running = false := by
        simpa using hrun
      rw [loopFrame_notRunning cfg width height (frames n) _ hrun']
      exact ih

/-- Witness for `distance_nonneg` on the concrete backward-rolling run. -/
theorem distance_nonneg_witness :
    (0 : ℚ) ≤ cexState.distanceTravelled ∧
    0 ≤ (runStates (CONFIG 0) 1 1000 cexFrames cexState 3).distanceTravelled :=
  ⟨le_refl 0, (distance_nonneg (CONFIG 0) 1 1000 cexFrames cexState (le_refl 0)).2 3⟩

/-- **C3 (counterexample)** — when the physics step reports
`ball.y = 2010 = height * 2.01 > height * 2` (`height = 1000`,
`KILL_Y_MULTIPLIER = 2`), the dying frame does transition Running → Ended, but
`distanceTravelled` still receives one more update later in that same frame
(from 7 to 9, since `updateDistance` runs after `stepPhysics`), and the frame
still calls `requestAnimationFrame` once more — contradicting "no further
updates and no further frame callbacks" as stated. -/
theorem kill_frame_updates_cex :
    (loopFrame (CONFIG 0) 1 1000 killFrame killState).1.running = false ∧
    killState.distanceTravelled = 7 ∧
    (loopFrame (CONFIG 0) 1 1000 killFrame killState).1.distanceTravelled = 9 ∧
    (loopFrame (CONFIG 0) 1 1000 killFrame killState).2 = true := by
  have hkill : (1000 : ℚ) * (CONFIG (0 : ℚ)).KILL_Y_MULTIPLIER < killFrame.physBallY := by
    norm_num [killFrame, CONFIG]
  have h := loopFrame_kill_aux (CONFIG 0) 1 1000 killFrame killState rfl hkill
  refine ⟨h.1, rfl, ?_, h.2.1⟩
  rw [h.2.2.1]
  norm_num [killFrame, killState, max_def]

/-- **C3 (amended)** — when `ball.y` exceeds `height * KILL_Y_MULTIPLIER` at
the physics-step check of a running frame, the run transitions
Running → Ended; the remainder of that same frame still performs one distance
update (`max 0 (ball.x - startX)` from the post-step position) and schedules
one final frame callback, and every frame on a non-running state changes
nothing and schedules nothing — so from the frame after the dying one,
`distanceTravelled` is frozen and the loop halts. -/
theorem kill_transition_spec (a width height : ℚ) (fr : FrameIn) (s : GState ℚ)
    (hrun : s.running = true) (hkill : height * 2 < fr.physBallY) :
    (loopFrame (CONFIG a) width height fr s).1.running = false ∧
    (loopFrame (CONFIG a) width height fr s).2 = true ∧
    (loopFrame (CONFIG a) width height fr s).1.distanceTravelled
        = max 0 (fr.physBallX - s.startX) ∧
    (∀ (fr2 : FrameIn) (s2 : GState ℚ), s2.running = false →
        loopFrame (CONFIG a) width height fr2 s2 = (s2, false)) := by
  have hkill' : height * (CONFIG (a : ℚ)).KILL_Y_MULTIPLIER < fr.physBallY := hkill
  have h := loopFrame_kill_aux (CONFIG a) width height fr s hrun hkill'
  exact ⟨h.1, h.2.1, h.2.2.1, fun fr2 s2 h2 =>
    loopFrame_notRunning (CONFIG a) width height fr2 s2 h2⟩

/-- Witness for `kill_transition_spec` on the concrete dying frame. -/
theorem kill_transition_spec_witness :
    killState.running = true ∧
    (1000 : ℚ) * 2 < killFrame.physBallY ∧
    ((loopFrame (CONFIG (0 : ℚ)) 1 1000 killFrame killState).1.running = false ∧
      (loopFrame (CONFIG (0 : ℚ)) 1 1000 killFrame killState).2 = true ∧
      (loopFrame (CONFIG (0 : ℚ)) 1 1000 killFrame killState).1.distanceTravelled
          = max 0 (killFrame.physBallX - killState.startX) ∧
      (∀ (fr2 : FrameIn) (s2 : GState ℚ), s2.running = false →
          loopFrame (CONFIG (0 : ℚ)) 1 1000 fr2 s2 = (s2, false))) :=
  ⟨rfl, by norm_num [killFrame],
    kill_transition_spec 0 1 1000 killFrame killState rfl (by norm_num [killFrame])⟩

end TiltRun
